import Mathlib

/-!
Verification of the go-supertonic OpenAI-compatible TTS server.

Shallow embedding of the server in `src/unnamed/part_005` (`package main`:
`validateRequest`, `generateSpeech`, `handleTTSRequest`, `verifyAssets`,
`convertToFormat`, `wavToBytes`, `getContentType`) and of the voice table
in `src/tts/voices.go` (`VoiceMapping`, `GetVoicePath`,
`GetAvailableVoices`).

Conventions of the embedding:
* Go `float64`/`float32` values (speeds, samples, durations) are modelled
  as rationals `ℚ`; Go `int` as `ℤ`; Go `string` as Lean `String`.
* Filesystem existence checks (`os.Stat`) are modelled by an oracle
  `fs : String → Bool` telling whether a path exists.
* The `tts` engine package (`LoadCfgs`, `LoadTextToSpeech`,
  `LoadVoiceStyle`, `TextToSpeech.Call`) is not part of the analysed
  source; it is an external collaborator modelled by an `Env` record of
  opaque-result oracles, with the sequence of engine operations performed
  by the server recorded as an explicit event trace.
* Go `error` values produced by the server are modelled by inductive
  error types; `render…` functions reproduce the exact Go message strings
  so that each constructor corresponds to one `fmt.Errorf` site.
-/

deriving instance DecidableEq for Except

namespace Supertonic

/-- OpenAI TTS request structure (`TTSRequest` in part_005). -/
structure TTSRequest where
  model : String
  input : String
  voice : String
  responseFormat : String
  speed : ℚ
deriving DecidableEq, Repr

/-- API server configuration (`ServerConfig` in part_005), filled from
command-line flags. -/
structure ServerConfig where
  port : String
  assetsDir : String
  useGPU : Bool
  totalStep : ℤ
  defaultSpeed : ℚ
  saveDir : String
deriving DecidableEq, Repr

/-- Errors of `tts.GetVoicePath` (voices.go lines 28 and 44). -/
inductive VoiceErr where
  | unsupportedVoice (v : String)
  | styleNotFound (v : String)
deriving DecidableEq, Repr

/-- Errors of `validateRequest` (part_005 lines 232-278); the `voiceErr`
constructor is the error of `tts.GetVoicePath` returned unchanged. -/
inductive VErr where
  | inputRequired
  | voiceErr (e : VoiceErr)
  | unsupportedModel (m : String)
  | speedOutOfRange
  | unsupportedFormat (f : String)
deriving DecidableEq, Repr

/-- The table `tts.VoiceMapping` (voices.go lines 10-21), as an association list in
source order. -/
def VoiceMapping : List (String × String) :=
  [("M1", "assets/voice_styles/M1.json"),
   ("M2", "assets/voice_styles/M2.json"),
   ("M3", "assets/voice_styles/M3.json"),
   ("M4", "assets/voice_styles/M4.json"),
   ("M5", "assets/voice_styles/M5.json"),
   ("F1", "assets/voice_styles/F1.json"),
   ("F2", "assets/voice_styles/F2.json"),
   ("F3", "assets/voice_styles/F3.json"),
   ("F4", "assets/voice_styles/F4.json"),
   ("F5", "assets/voice_styles/F5.json")]

/-- Embedding of `tts.GetAvailableVoices` (voices.go lines 48-54): one name per key of
`VoiceMapping`. -/
def GetAvailableVoices : List String := VoiceMapping.map Prod.fst

/-- The path `filepath.Join("/var/lib/supertonic", path)` for the relative paths of
`VoiceMapping`. -/
def altVoicePath (path : String) : String := "/var/lib/supertonic/" ++ path

/-- Embedding of `tts.GetVoicePath` (voices.go lines 24-45): look the voice up in
`VoiceMapping`, then try the default location and `/var/lib/supertonic`. -/
def GetVoicePath (fs : String → Bool) (voiceName : String) :
    Except VoiceErr String :=
  match VoiceMapping.lookup voiceName with
  | none => .error (.unsupportedVoice voiceName)
  | some path =>
    if fs path then .ok path
    else if fs (altVoicePath path) then .ok (altVoicePath path)
    else .error (.styleNotFound voiceName)

/-- Go `fmt.Sprintf("%v", slice)` on a `[]string`. -/
def formatStringSlice (l : List String) : String :=
  "[" ++ String.intercalate " " l ++ "]"

/-- The exact Go error strings of `tts.GetVoicePath`. -/
def renderVoiceErr : VoiceErr → String
  | .unsupportedVoice v =>
      "unsupported voice: " ++ v ++ ". Available voices: " ++
        formatStringSlice GetAvailableVoices
  | .styleNotFound v =>
      "voice style file not found for " ++ v ++ " in either location"

/-- The exact Go error strings of `validateRequest`. -/
def renderVErr : VErr → String
  | .inputRequired => "input text is required"
  | .voiceErr e => renderVoiceErr e
  | .unsupportedModel m =>
      "unsupported model: " ++ m ++ " (use \x27tts-1\x27 or \x27tts-1-hd\x27)"
  | .speedOutOfRange => "speed must be between 0.25 and 4.0"
  | .unsupportedFormat f => "unsupported response format: " ++ f

/-- The `validFormats` table of `validateRequest` (part_005 lines
269-272); a Go map lookup that yields `false` for absent keys. -/
def validFormats (f : String) : Bool :=
  f = "wav" || f = "mp3" || f = "opus" || f = "aac" || f = "flac" || f = "pcm"

/-- The voice default of `validateRequest` (part_005 lines 237-239):
an empty voice becomes `"F5"`. -/
def normVoice (req : TTSRequest) : String :=
  if req.voice = "" then "F5" else req.voice

/-- The model default of `validateRequest` (part_005 lines 241-243):
an empty model becomes `"tts-1"`. -/
def normModel (req : TTSRequest) : String :=
  if req.model = "" then "tts-1" else req.model

/-- The format default of `validateRequest` (part_005 lines 245-247):
an empty response format becomes `"wav"`. -/
def normFormat (req : TTSRequest) : String :=
  if req.responseFormat = "" then "wav" else req.responseFormat

/-- The speed default of `validateRequest` (part_005 lines 249-251):
a zero speed becomes `config.DefaultSpeed`. -/
def normSpeed (cfg : ServerConfig) (req : TTSRequest) : ℚ :=
  if req.speed = 0 then cfg.defaultSpeed else req.speed

/-- Embedding of `validateRequest` (part_005 lines 232-278).  The Go code mutates the
request in place (defaulting voice/model/format/speed) and the handler
then uses the mutated request, so the embedding returns the normalized
request on success. -/
def validateRequest (cfg : ServerConfig) (fs : String → Bool)
    (req : TTSRequest) : Except VErr TTSRequest :=
  if req.input = "" then .error .inputRequired
  else
    match GetVoicePath fs (normVoice req) with
    | .error e => .error (.voiceErr e)
    | .ok _ =>
      if normModel req ≠ "tts-1" ∧ normModel req ≠ "tts-1-hd" then
        .error (.unsupportedModel (normModel req))
      else if normSpeed cfg req < mkRat 1 4 ∨ 4 < normSpeed cfg req then
        .error .speedOutOfRange
      else if ¬ validFormats (normFormat req) then
        .error (.unsupportedFormat (normFormat req))
      else .ok { model := normModel req, input := req.input,
                 voice := normVoice req, responseFormat := normFormat req,
                 speed := normSpeed cfg req }

/-- The `audio.Format` of the go-audio buffer built by `wavToBytes`. -/
structure AudioFormat where
  sampleRate : ℤ
  numChannels : ℕ
deriving DecidableEq, Repr

/-- The `audio.IntBuffer` handed to the WAV encoder by `wavToBytes`
(part_005 lines 407-411). -/
structure IntBuffer where
  data : List ℤ
  format : AudioFormat
  sourceBitDepth : ℕ
deriving DecidableEq, Repr

/-- Go numeric conversion `int(x)` on a float value: truncation toward
zero, modelled on `ℚ`. -/
def truncRat (q : ℚ) : ℤ := if 0 ≤ q then ⌊q⌋ else ⌈q⌉

/-- The clamping step of the `wavToBytes` sample loop (part_005 lines
397-402): values above `1.0` become `1.0`, values below `-1.0` become
`-1.0`. -/
def clampSample (s : ℚ) : ℚ :=
  if 1 < s then 1 else if s < -1 then -1 else s

/-- One iteration of the `wavToBytes` sample loop (part_005 line 403):
`data[i] = int(clamped * 32767)`. -/
def sampleToInt (s : ℚ) : ℤ := truncRat (clampSample s * 32767)

/-- Embedding of `wavToBytes` (part_005 lines 381-424) up to the external go-audio
container encoder: the `audio.IntBuffer` it fills and hands to
`wav.NewEncoder(tmpfile, sampleRate, 16, 1, 1)`. -/
def wavToBytes (audioData : List ℚ) (sampleRate : ℤ) : IntBuffer :=
  { data := audioData.map sampleToInt
    format := { sampleRate := sampleRate, numChannels := 1 }
    sourceBitDepth := 16 }

/-- Error of `convertToFormat` (part_005 line 377). -/
inductive ConvErr where
  | notImplemented (f : String)
deriving DecidableEq, Repr

/-- The exact Go error string of `convertToFormat`. -/
def renderConvErr : ConvErr → String
  | .notImplemented f =>
      "format \x27" ++ f ++ "\x27 not implemented yet. Use \x27wav\x27 for now"

/-- Embedding of `convertToFormat` (part_005 lines 372-378): `wav` is encoded
natively, every other format is an error. -/
def convertToFormat (w : List ℚ) (sampleRate : ℤ) (format : String) :
    Except ConvErr IntBuffer :=
  if format = "wav" then .ok (wavToBytes w sampleRate)
  else .error (.notImplemented format)

/-- Errors of `generateSpeech` (part_005 lines 281-334); each
constructor is one `fmt.Errorf` wrapping site, `voiceErr` is the
`tts.GetVoicePath` error returned unchanged. -/
inductive GErr where
  | failedLoadConfig (e : String)
  | failedLoadTTS (e : String)
  | voiceErr (e : VoiceErr)
  | failedLoadStyle (e : String)
  | genFailed (e : String)
  | convertFailed (e : ConvErr)
deriving DecidableEq, Repr

/-- The exact Go error strings of `generateSpeech`. -/
def renderGErr : GErr → String
  | .failedLoadConfig e => "failed to load config: " ++ e
  | .failedLoadTTS e => "failed to load TTS: " ++ e
  | .voiceErr e => renderVoiceErr e
  | .failedLoadStyle e => "failed to load voice style: " ++ e
  | .genFailed e => "speech generation failed: " ++ e
  | .convertFailed e => "format conversion failed: " ++ renderConvErr e

/-- Observable operations that `generateSpeech` performs against the
`tts` engine package, recorded in order.  `loadTTS`/`destroyTTS` are
`tts.LoadTextToSpeech` and the deferred `textToSpeech.Destroy()`;
`callStep` records the `totalStep` argument of `textToSpeech.Call`. -/
inductive Event where
  | loadCfgsEv
  | loadTTSEv
  | destroyTTSEv
  | getVoiceEv
  | loadStyleEv
  | destroyStyleEv
  | callEv (steps : ℤ)
  | convertEv
deriving DecidableEq, Repr, BEq

/-- The external `tts` engine package, as seen from the server: result
oracles for config load, model load, voice-style load and synthesis,
plus the filesystem-existence oracle.  `C`, `T`, `S` are the (opaque)
types of `tts.Cfgs`, `tts.TextToSpeech` and the voice style. -/
structure Env (C T S : Type) where
  loadCfgs : Except String C
  loadTTS : C → Except String T
  sampleRate : T → ℤ
  fs : String → Bool
  loadVoiceStyle : List String → Bool → Except String S
  call : T → String → String → S → ℤ → ℚ → ℚ → Except String (List ℚ × ℚ)

/-- Embedding of `generateSpeech` (part_005 lines 281-334), with the engine calls it
issues recorded as a trace.  The deferred `Destroy()` calls run at
function exit in LIFO order, so `destroyStyleEv` precedes
`destroyTTSEv` once the style has been loaded. -/
def generateSpeech {C T S : Type} (env : Env C T S) (cfg : ServerConfig)
    (req : TTSRequest) : Except GErr IntBuffer × List Event :=
  match env.loadCfgs with
  | .error e => (.error (.failedLoadConfig e), [.loadCfgsEv])
  | .ok c =>
    match env.loadTTS c with
    | .error e => (.error (.failedLoadTTS e), [.loadCfgsEv, .loadTTSEv])
    | .ok t =>
      match GetVoicePath env.fs req.voice with
      | .error e =>
          (.error (.voiceErr e),
           [.loadCfgsEv, .loadTTSEv, .getVoiceEv, .destroyTTSEv])
      | .ok voicePath =>
        match env.loadVoiceStyle [voicePath] false with
        | .error e =>
            (.error (.failedLoadStyle e),
             [.loadCfgsEv, .loadTTSEv, .getVoiceEv, .loadStyleEv,
              .destroyTTSEv])
        | .ok style =>
          let totalStep : ℤ :=
            if req.model = "tts-1-hd" then 10 else cfg.totalStep
          match env.call t req.input "en" style totalStep req.speed (mkRat 3 10) with
          | .error e =>
              (.error (.genFailed e),
               [.loadCfgsEv, .loadTTSEv, .getVoiceEv, .loadStyleEv,
                .callEv totalStep, .destroyStyleEv, .destroyTTSEv])
          | .ok (w, _duration) =>
            match convertToFormat w (env.sampleRate t) req.responseFormat with
            | .error e =>
                (.error (.convertFailed e),
                 [.loadCfgsEv, .loadTTSEv, .getVoiceEv, .loadStyleEv,
                  .callEv totalStep, .convertEv, .destroyStyleEv,
                  .destroyTTSEv])
            | .ok buf =>
                (.ok buf,
                 [.loadCfgsEv, .loadTTSEv, .getVoiceEv, .loadStyleEv,
                  .callEv totalStep, .convertEv, .destroyStyleEv,
                  .destroyTTSEv])

/-- Embedding of `getContentType` (part_005 lines 342-359). -/
def getContentType (format : String) : String :=
  if format = "mp3" then "audio/mpeg"
  else if format = "opus" then "audio/opus"
  else if format = "aac" then "audio/aac"
  else if format = "flac" then "audio/flac"
  else if format = "wav" then "audio/wav"
  else if format = "pcm" then "audio/L16;rate=24000"
  else "audio/wav"

/-- Outcome of `handleTTSRequest`: a 400 with the validation error, a
500 with `"Speech generation failed: "` prefixed to the generation
error, or the audio bytes with their content type. -/
inductive HResult where
  | badRequest (e : VErr)
  | serverError (e : GErr)
  | okAudio (buf : IntBuffer) (contentType : String)
deriving DecidableEq, Repr

/-- The body string written by `handleTTSRequest` on an error path. -/
def renderHResult : HResult → String
  | .badRequest e => renderVErr e
  | .serverError e => "Speech generation failed: " ++ renderGErr e
  | .okAudio _ ct => ct

/-- Embedding of `handleTTSRequest` (part_005 lines 190-229) from the point where the
request body has been decoded (method check and JSON decoding are the
HTTP layer): validate, then generate, with the engine trace of the
request attached. -/
def handleTTSRequest {C T S : Type} (env : Env C T S) (cfg : ServerConfig)
    (req : TTSRequest) : HResult × List Event :=
  match validateRequest cfg env.fs req with
  | .error e => (.badRequest e, [])
  | .ok req2 =>
    match generateSpeech env cfg req2 with
    | (.error e, tr) => (.serverError e, tr)
    | (.ok buf, tr) =>
        (.okAudio buf (getContentType req2.responseFormat), tr)

/-- The `requiredFiles` list of `verifyAssets` (part_005 lines 136-143). -/
def requiredFiles : List String :=
  ["duration_predictor.onnx", "text_encoder.onnx", "vector_estimator.onnx",
   "vocoder.onnx", "tts.json", "unicode_indexer.json"]

/-- The paths `verifyAssets` requires: each `requiredFiles` entry joined
under `assetsDir/onnx`. -/
def requiredPaths (assetsDir : String) : List String :=
  requiredFiles.map (fun f => assetsDir ++ "/onnx/" ++ f)

/-- Embedding of `verifyAssets` (part_005 lines 131-161): returns the fatal result
together with the list of warning lines logged for missing voice style
files.  Missing ONNX files abort with an error naming the first missing
path (the Go loop returns at the first failing `os.Stat`); missing
voice style files only produce `log.Printf` warnings. -/
def verifyAssets (fs : String → Bool) (assetsDir : String) :
    Except String Unit × List String :=
  match (requiredPaths assetsDir).find? (fun p => !(fs p)) with
  | some p => (.error ("missing required ONNX file: " ++ p), [])
  | none =>
    (.ok (),
     (VoiceMapping.filter
        (fun vf => ¬ fs (assetsDir ++ "/voice_styles/" ++ vf.2))).map
       (fun vf =>
         "Warning: Missing voice style " ++ vf.1 ++ " at " ++
           assetsDir ++ "/voice_styles/" ++ vf.2))

/-- Trace predicate: the event is the `tts.LoadCfgs` call. -/
def isLoadCfgs : Event → Bool
  | .loadCfgsEv => true
  | _ => false

/-- Trace predicate: the event is the `tts.LoadTextToSpeech` call. -/
def isLoadTTS : Event → Bool
  | .loadTTSEv => true
  | _ => false

/-- Trace predicate: the event is the deferred `textToSpeech.Destroy()`. -/
def isDestroyTTS : Event → Bool
  | .destroyTTSEv => true
  | _ => false

/-- Trace predicate: the event is the `tts.LoadVoiceStyle` call. -/
def isLoadStyle : Event → Bool
  | .loadStyleEv => true
  | _ => false

/-- Trace predicate: the event is the `textToSpeech.Call` invocation
(at any step count). -/
def isCall : Event → Bool
  | .callEv _ => true
  | _ => false

/-- A filesystem in which exactly the default `F5` voice style file
exists (enough for a request with voice `F5` or an empty voice). -/
def fs0 : String → Bool := fun p => p == "assets/voice_styles/F5.json"

/-- A concrete well-formed request: all fields already normalized. -/
def req0 : TTSRequest :=
  { model := "tts-1", input := "Hello world.", voice := "F5",
    responseFormat := "wav", speed := 1 }

/-- A concrete server configuration with the flag defaults of `main`
(part_005 lines 43-47). -/
def cfg0 : ServerConfig :=
  { port := "8880", assetsDir := "assets", useGPU := false, totalStep := 5,
    defaultSpeed := 1, saveDir := "" }

/-- An engine environment in which every engine operation succeeds. -/
def envOK : Env Unit Unit Unit :=
  { loadCfgs := .ok (), loadTTS := fun _ => .ok (),
    sampleRate := fun _ => 44100, fs := fs0,
    loadVoiceStyle := fun _ _ => .ok (),
    call := fun _ _ _ _ _ _ _ => .ok ([0], 1) }

lemma mkRat_eq_div (n : ℤ) (d : ℕ) : (mkRat n d : ℚ) = (n : ℚ) / (d : ℚ) := by
  norm_num [Rat.mkRat_eq_divInt, Rat.divInt_eq_div]

lemma mkRat14 : (mkRat 1 4 : ℚ) = 1/4 := by
  rw [mkRat_eq_div]
  norm_num

/-- If the earlier checks pass and the normalized speed is in range, the
speed check of `validateRequest` is not taken. -/
lemma notSpeedCond (cfg : ServerConfig) (req : TTSRequest)
    (h1 : 1/4 ≤ normSpeed cfg req) (h2 : normSpeed cfg req ≤ 4) :
    ¬(normSpeed cfg req < mkRat 1 4 ∨ 4 < normSpeed cfg req) := by
  rw [mkRat14]
  push_neg
  constructor
  · simpa [one_div] using h1
  · exact h2

/-- Lemma: `validateRequest` succeeds, returning the normalized request, when
the input is non-empty, the voice resolves, the (defaulted) model is one
of the two supported names, the (defaulted) format is in the table and
the (defaulted) speed is within `[0.25, 4.0]`. -/
lemma validateRequest_ok (cfg : ServerConfig) (fs : String → Bool)
    (req : TTSRequest)
    (hin : req.input ≠ "")
    (hv : ∃ p, GetVoicePath fs (normVoice req) = .ok p)
    (hm : normModel req = "tts-1" ∨ normModel req = "tts-1-hd")
    (hf : validFormats (normFormat req) = true)
    (h1 : 1/4 ≤ normSpeed cfg req) (h2 : normSpeed cfg req ≤ 4) :
    validateRequest cfg fs req
      = .ok { model := normModel req, input := req.input,
              voice := normVoice req, responseFormat := normFormat req,
              speed := normSpeed cfg req } := by
  obtain ⟨p, hp⟩ := hv
  have hmne : ¬(normModel req ≠ "tts-1" ∧ normModel req ≠ "tts-1-hd") := by
    rcases hm with h | h <;> simp [h]
  unfold validateRequest
  rw [if_neg hin, hp]
  simp only []
  rw [if_neg hmne, if_neg (notSpeedCond cfg req h1 h2)]
  simp [hf]

/-- Lemma: `validateRequest` reports the out-of-range-speed error when the
earlier checks pass and the normalized speed is outside `[0.25, 4.0]`. -/
lemma validateRequest_speed_error (cfg : ServerConfig) (fs : String → Bool)
    (req : TTSRequest)
    (hin : req.input ≠ "")
    (hv : ∃ p, GetVoicePath fs (normVoice req) = .ok p)
    (hm : normModel req = "tts-1" ∨ normModel req = "tts-1-hd")
    (hlo : normSpeed cfg req < 1/4 ∨ 4 < normSpeed cfg req) :
    validateRequest cfg fs req = .error .speedOutOfRange := by
  obtain ⟨p, hp⟩ := hv
  have hmne : ¬(normModel req ≠ "tts-1" ∧ normModel req ≠ "tts-1-hd") := by
    rcases hm with h | h <;> simp [h]
  have hr : normSpeed cfg req < mkRat 1 4 ∨ 4 < normSpeed cfg req := by
    rw [mkRat14]
    exact hlo
  unfold validateRequest
  rw [if_neg hin, hp]
  simp only []
  rw [if_neg hmne, if_pos hr]

/-- Whatever the other fields are, `validateRequest` never reports the
out-of-range-speed error when the normalized speed is in `[0.25, 4.0]`:
every other rejection path uses a different error constructor. -/
lemma validateRequest_ne_speed_error (cfg : ServerConfig)
    (fs : String → Bool) (req : TTSRequest)
    (h1 : 1/4 ≤ normSpeed cfg req) (h2 : normSpeed cfg req ≤ 4) :
    validateRequest cfg fs req ≠ .error .speedOutOfRange := by
  unfold validateRequest
  by_cases hi : req.input = ""
  · simp [hi]
  · rw [if_neg hi]
    cases hgv : GetVoicePath fs (normVoice req) with
    | error e => simp
    | ok p =>
      simp only []
      by_cases hm : normModel req ≠ "tts-1" ∧ normModel req ≠ "tts-1-hd"
      · rw [if_pos hm]
        simp
      · rw [if_neg hm, if_neg (notSpeedCond cfg req h1 h2)]
        by_cases hfm : validFormats (normFormat req) <;> simp [hfm]

/-- Lemma: `validateRequest` rejects any (defaulted) model name other than
`tts-1` and `tts-1-hd` once input and voice have been accepted. -/
lemma validateRequest_model_error (cfg : ServerConfig) (fs : String → Bool)
    (req : TTSRequest)
    (hin : req.input ≠ "")
    (hv : ∃ p, GetVoicePath fs (normVoice req) = .ok p)
    (hm1 : normModel req ≠ "tts-1") (hm2 : normModel req ≠ "tts-1-hd") :
    validateRequest cfg fs req = .error (.unsupportedModel (normModel req)) := by
  obtain ⟨p, hp⟩ := hv
  unfold validateRequest
  rw [if_neg hin, hp]
  simp only []
  rw [if_pos ⟨hm1, hm2⟩]

/-- The configuration `cfg0` with the `--total-step` flag set to `0`. -/
def cfgZero : ServerConfig :=
  { port := "8880", assetsDir := "assets", useGPU := false, totalStep := 0,
    defaultSpeed := 1, saveDir := "" }

/-- A filesystem in which exactly the six required ONNX-directory files
exist and no voice style file does. -/
def fsOnnxOnly : String → Bool := fun p => (requiredPaths "assets").contains p

/-- C1: the claim says no synthesis request triggers a fresh load of the
models and handling one request does not destroy the bundle.  On the
code, `generateSpeech` issues `tts.LoadCfgs` and `tts.LoadTextToSpeech`
on every request and runs the deferred `textToSpeech.Destroy()` when the
request finishes: on a concrete fully-successful request the engine
trace contains exactly one config load, one model-bundle load and one
bundle destruction. -/
theorem c1_per_request_reload :
    (generateSpeech envOK cfg0 req0).2.countP isLoadCfgs = 1
    ∧ (generateSpeech envOK cfg0 req0).2.countP isLoadTTS = 1
    ∧ (generateSpeech envOK cfg0 req0).2.countP isDestroyTTS = 1 := by
  decide

/-- C3 counterexample: with the `--total-step` flag at `0` (a step count
below 1), a well-formed request passes `validateRequest` with no
`InvalidParameter` error, and the handler performs model loading and
runs inference with `totalStep = 0` — refuting the claim that a step
count below 1 is rejected before any model work. -/
theorem c3_counterexample :
    (0 : ℤ) < 1
    ∧ validateRequest cfgZero fs0 req0 = .ok req0
    ∧ (handleTTSRequest envOK cfgZero req0).2.countP isLoadTTS = 1
    ∧ (handleTTSRequest envOK cfgZero req0).2.countP
        (fun e => e == Event.callEv 0) = 1 := by
  decide

/-- C4 counterexample: with all six required ONNX-directory files
present but every per-voice style file absent, `verifyAssets` still
returns success — a missing voice style file is not a fatal load-time
error, refuting the claim that the per-voice style files count as
required assets for the fail-fast check. -/
theorem c4_counterexample :
    fsOnnxOnly "assets/voice_styles/F5.json" = false
    ∧ (verifyAssets fsOnnxOnly "assets").1 = .ok () := by
  decide

/-- C2: for a request whose other fields pass validation and whose speed
field is non-zero, `validateRequest` reports the invalid-parameter speed
error exactly when the speed is below `0.25` or above `4.0`, and accepts
the request (keeping the given speed) whenever the speed is in
`[0.25, 4.0]`; in particular `0.24` and `4.01` are rejected while `0.25`
and `4.0` are accepted (see the witness). -/
theorem c2_speed_range (cfg : ServerConfig) (fs : String → Bool)
    (req : TTSRequest)
    (hin : req.input ≠ "")
    (hsp : req.speed ≠ 0)
    (hv : ∃ p, GetVoicePath fs (normVoice req) = .ok p)
    (hm : normModel req = "tts-1" ∨ normModel req = "tts-1-hd")
    (hf : validFormats (normFormat req) = true) :
    (validateRequest cfg fs req = .error .speedOutOfRange
      ↔ (req.speed < 1/4 ∨ 4 < req.speed))
    ∧ (1/4 ≤ req.speed → req.speed ≤ 4 →
        validateRequest cfg fs req
          = .ok { model := normModel req, input := req.input,
                  voice := normVoice req, responseFormat := normFormat req,
                  speed := req.speed }) := by
  have hns : normSpeed cfg req = req.speed := by simp [normSpeed, hsp]
  constructor
  · constructor
    · intro h
      by_contra hc
      push_neg at hc
      refine validateRequest_ne_speed_error cfg fs req ?_ ?_ h
      · rw [hns]
        simpa [one_div] using hc.1
      · rw [hns]
        exact hc.2
    · intro h
      exact validateRequest_speed_error cfg fs req hin hv hm (by rw [hns]; exact h)
  · intro h1 h2
    have h := validateRequest_ok cfg fs req hin hv hm hf
      (by rw [hns]; exact h1) (by rw [hns]; exact h2)
    rw [h, hns]

/-- Witness for C2 at the boundary speeds: `0.24 = mkRat 6 25` and
`4.01 = mkRat 401 100` are rejected with the speed error, `0.25 =
mkRat 1 4` and `4.0` are accepted. -/
theorem c2_speed_range_witness :
    validateRequest cfg0 fs0 { req0 with speed := mkRat 6 25 }
      = .error .speedOutOfRange
    ∧ validateRequest cfg0 fs0 { req0 with speed := mkRat 401 100 }
      = .error .speedOutOfRange
    ∧ (∃ r, validateRequest cfg0 fs0 { req0 with speed := mkRat 1 4 }
        = .ok r ∧ r.speed = mkRat 1 4)
    ∧ (∃ r, validateRequest cfg0 fs0 { req0 with speed := (4 : ℚ) }
        = .ok r ∧ r.speed = 4) := by
  refine ⟨?_, ?_, ?_, ?_⟩
  · exact (c2_speed_range cfg0 fs0 _ (by decide) (by decide)
      ⟨"assets/voice_styles/F5.json", by decide⟩ (Or.inl (by decide))
      (by decide)).1.mpr
      (Or.inl (by show (mkRat 6 25 : ℚ) < 1/4; rw [mkRat_eq_div]; norm_num))
  · exact (c2_speed_range cfg0 fs0 _ (by decide) (by decide)
      ⟨"assets/voice_styles/F5.json", by decide⟩ (Or.inl (by decide))
      (by decide)).1.mpr
      (Or.inr (by show (4:ℚ) < mkRat 401 100; rw [mkRat_eq_div]; norm_num))
  · exact ⟨_, (c2_speed_range cfg0 fs0 _ (by decide) (by decide)
      ⟨"assets/voice_styles/F5.json", by decide⟩ (Or.inl (by decide))
      (by decide)).2
      (by show (1/4 : ℚ) ≤ mkRat 1 4; rw [mkRat_eq_div]; norm_num)
      (by show (mkRat 1 4 : ℚ) ≤ 4; rw [mkRat_eq_div]; norm_num), rfl⟩
  · exact ⟨_, (c2_speed_range cfg0 fs0 _ (by decide) (by decide)
      ⟨"assets/voice_styles/F5.json", by decide⟩ (Or.inl (by decide))
      (by decide)).2 (by norm_num) (by norm_num), rfl⟩

/-- C3 (amended): the entry point does validate that speed lies in
`[0.25, 4.0]` before doing any model work — a request whose other fields
are valid but whose (non-zero) speed is out of range is answered with
the invalid-parameter speed error and the engine trace is empty, so no
model loading or inference happens.  (The step-count half of the
original claim is refuted by `c3_counterexample`: `totalStep` is a
server flag that is never validated.) -/
theorem c3_speed_checked_before_model_work {C T S : Type} (env : Env C T S)
    (cfg : ServerConfig) (req : TTSRequest)
    (hin : req.input ≠ "")
    (hsp : req.speed ≠ 0)
    (hv : ∃ p, GetVoicePath env.fs (normVoice req) = .ok p)
    (hm : normModel req = "tts-1" ∨ normModel req = "tts-1-hd")
    (hr : req.speed < 1/4 ∨ 4 < req.speed) :
    handleTTSRequest env cfg req = (.badRequest .speedOutOfRange, []) := by
  have hns : normSpeed cfg req = req.speed := by simp [normSpeed, hsp]
  have h := validateRequest_speed_error cfg env.fs req hin hv hm
    (by rw [hns]; exact hr)
  unfold handleTTSRequest
  rw [h]

/-- Witness for the amended C3 at speed `5`. -/
theorem c3_speed_checked_witness :
    handleTTSRequest envOK cfg0 { req0 with speed := 5 }
      = (.badRequest .speedOutOfRange, []) :=
  c3_speed_checked_before_model_work envOK cfg0 _ (by decide) (by decide)
    ⟨"assets/voice_styles/F5.json", by decide⟩ (Or.inl (by decide))
    (Or.inr (by norm_num))

/-- C4 (amended): `verifyAssets` fails fast exactly on the six required
ONNX-directory files (the four models, `tts.json`, and
`unicode_indexer.json`), naming a missing file; when all six exist it
succeeds regardless of the voice style files, which at worst produce
warnings (see `c4_counterexample` for the non-fatality of a missing
voice style). -/
theorem c4_required_onnx_files (fs : String → Bool) (assetsDir : String) :
    ((∀ f ∈ requiredPaths assetsDir, fs f = true) →
      (verifyAssets fs assetsDir).1 = .ok ())
    ∧ (∀ f ∈ requiredPaths assetsDir, fs f = false →
        ∃ g ∈ requiredPaths assetsDir, fs g = false ∧
          (verifyAssets fs assetsDir).1
            = .error ("missing required ONNX file: " ++ g)) := by
  constructor
  · intro hall
    have h : (requiredPaths assetsDir).find? (fun p => !(fs p)) = none := by
      rw [List.find?_eq_none]
      intro x hx
      simp [hall x hx]
    unfold verifyAssets
    rw [h]
  · intro f hf hmiss
    cases hfind : (requiredPaths assetsDir).find? (fun p => !(fs p)) with
    | none =>
      exfalso
      rw [List.find?_eq_none] at hfind
      exact hfind f hf (by simp [hmiss])
    | some g =>
      refine ⟨g, List.mem_of_find?_eq_some hfind, ?_, ?_⟩
      · simpa using List.find?_some hfind
      · unfold verifyAssets
        rw [hfind]

/-- Witness for the amended C4: all six files present gives success; on
an empty filesystem the check fails naming a missing required file. -/
theorem c4_required_onnx_files_witness :
    (verifyAssets fsOnnxOnly "assets").1 = .ok ()
    ∧ ∃ g ∈ requiredPaths "assets", (fun _ => false : String → Bool) g = false ∧
        (verifyAssets (fun _ => false) "assets").1
          = .error ("missing required ONNX file: " ++ g) := by
  constructor
  · exact (c4_required_onnx_files fsOnnxOnly "assets").1 (by decide)
  · exact (c4_required_onnx_files (fun _ => false) "assets").2
      "assets/onnx/duration_predictor.onnx" (by decide) rfl

/-- C5: format conversion is a stub — every requested format other than
`wav` (in particular `mp3`, `opus`, `aac`, `flac`, `pcm`, all of which
are accepted by the validation table) yields the not-implemented error
and no audio bytes, while `wav` yields the encoded buffer of the
synthesized samples. -/
theorem c5_format_conversion_stub (w : List ℚ) (rate : ℤ) (fmt : String) :
    (fmt ≠ "wav" → convertToFormat w rate fmt = .error (.notImplemented fmt))
    ∧ convertToFormat w rate "wav" = .ok (wavToBytes w rate)
    ∧ (validFormats "mp3" = true ∧ validFormats "opus" = true
       ∧ validFormats "aac" = true ∧ validFormats "flac" = true
       ∧ validFormats "pcm" = true ∧ validFormats "wav" = true) := by
  refine ⟨?_, rfl, by decide⟩
  intro h
  unfold convertToFormat
  rw [if_neg h]

/-- Witness for C5 at format `mp3`. -/
theorem c5_format_conversion_stub_witness :
    convertToFormat [0] 44100 "mp3" = .error (.notImplemented "mp3") :=
  (c5_format_conversion_stub [0] 44100 "mp3").1 (by decide)

/-- C8: a request whose speed field is exactly `0` (which is what an
omitted JSON speed decodes to) has its speed replaced by the configured
default; when that default is within `[0.25, 4.0]` the request is never
rejected with the out-of-range speed error, and an otherwise-valid
request is accepted with the default speed substituted. -/
theorem c8_zero_speed_defaulted (cfg : ServerConfig) (fs : String → Bool)
    (req : TTSRequest)
    (h0 : req.speed = 0)
    (hd1 : 1/4 ≤ cfg.defaultSpeed) (hd2 : cfg.defaultSpeed ≤ 4) :
    validateRequest cfg fs req ≠ .error .speedOutOfRange
    ∧ (req.input ≠ "" →
      (∃ p, GetVoicePath fs (normVoice req) = .ok p) →
      (normModel req = "tts-1" ∨ normModel req = "tts-1-hd") →
      validFormats (normFormat req) = true →
      validateRequest cfg fs req
        = .ok { model := normModel req, input := req.input,
                voice := normVoice req, responseFormat := normFormat req,
                speed := cfg.defaultSpeed }) := by
  have hns : normSpeed cfg req = cfg.defaultSpeed := by simp [normSpeed, h0]
  constructor
  · exact validateRequest_ne_speed_error cfg fs req
      (by rw [hns]; exact hd1) (by rw [hns]; exact hd2)
  · intro hin hv hm hf
    rw [validateRequest_ok cfg fs req hin hv hm hf
      (by rw [hns]; exact hd1) (by rw [hns]; exact hd2), hns]

/-- Witness for C8: with the default speed of 1, a zero-speed request is
accepted with speed `1`. -/
theorem c8_zero_speed_defaulted_witness :
    validateRequest cfg0 fs0 { req0 with speed := 0 }
      ≠ .error .speedOutOfRange
    ∧ validateRequest cfg0 fs0 { req0 with speed := 0 }
      = .ok { model := "tts-1", input := "Hello world.", voice := "F5",
              responseFormat := "wav", speed := 1 } := by
  have h := c8_zero_speed_defaulted cfg0 fs0 { req0 with speed := 0 }
    rfl (by norm_num [cfg0]) (by norm_num [cfg0])
  exact ⟨h.1, h.2 (by decide) ⟨"assets/voice_styles/F5.json", by decide⟩
    (Or.inl (by decide)) (by decide)⟩

/-- The clamping step keeps every sample in `[-1, 1]`. -/
lemma clampSample_bounds (s : ℚ) :
    -1 ≤ clampSample s ∧ clampSample s ≤ 1 := by
  unfold clampSample
  by_cases h1 : 1 < s
  · rw [if_pos h1]
    norm_num
  · rw [if_neg h1]
    by_cases h2 : s < -1
    · rw [if_pos h2]
      norm_num
    · rw [if_neg h2]
      exact ⟨not_lt.mp h2, not_lt.mp h1⟩

/-- The emitted 16-bit value of any input sample lies in
`[-32767, 32767]`. -/
lemma sampleToInt_bounds (s : ℚ) :
    -32767 ≤ sampleToInt s ∧ sampleToInt s ≤ 32767 := by
  obtain ⟨hc1, hc2⟩ := clampSample_bounds s
  have hq1 : (-32767 : ℚ) ≤ clampSample s * 32767 := by nlinarith
  have hq2 : clampSample s * 32767 ≤ 32767 := by nlinarith
  unfold sampleToInt truncRat
  by_cases h0 : 0 ≤ clampSample s * 32767
  · rw [if_pos h0]
    constructor
    · calc (-32767 : ℤ) ≤ 0 := by norm_num
        _ ≤ ⌊clampSample s * 32767⌋ := Int.floor_nonneg.mpr h0
    · calc ⌊clampSample s * 32767⌋ ≤ ⌊(32767 : ℚ)⌋ := Int.floor_le_floor hq2
        _ = 32767 := by norm_num
  · rw [if_neg h0]
    push_neg at h0
    constructor
    · have hcast : (-32767 : ℚ) = ((-32767 : ℤ) : ℚ) := by push_cast; ring
      calc (-32767 : ℤ) = ⌈(-32767 : ℚ)⌉ := by rw [hcast, Int.ceil_intCast]
        _ ≤ ⌈clampSample s * 32767⌉ := Int.ceil_le_ceil hq1
    · calc ⌈clampSample s * 32767⌉ ≤ ⌈(0 : ℚ)⌉ := Int.ceil_le_ceil h0.le
        _ ≤ 32767 := by norm_num

/-- C6: the WAV output is mono 16-bit, and every sample — including
out-of-range inputs — is clamped to `[-1, 1]` and scaled by `32767`,
so each emitted integer lies in `[-32767, 32767]`. -/
theorem c6_samples_clamped (w : List ℚ) (rate : ℤ) :
    (wavToBytes w rate).format.numChannels = 1
    ∧ (wavToBytes w rate).sourceBitDepth = 16
    ∧ ∀ x ∈ (wavToBytes w rate).data, -32767 ≤ x ∧ x ≤ 32767 := by
  refine ⟨rfl, rfl, ?_⟩
  intro x hx
  unfold wavToBytes at hx
  simp only [List.mem_map] at hx
  obtain ⟨s, _, rfl⟩ := hx
  exact sampleToInt_bounds s

/-- Witness for C6: on the out-of-range sample `2` the emitted value is
the clamped `32767`, which is in range, and the buffer is mono. -/
theorem c6_samples_clamped_witness :
    (wavToBytes [2] 44100).format.numChannels = 1
    ∧ (-32767 ≤ (32767 : ℤ) ∧ (32767 : ℤ) ≤ 32767) := by
  have h := c6_samples_clamped [2] 44100
  refine ⟨h.1, h.2.2 32767 ?_⟩
  have hs : sampleToInt 2 = 32767 := by
    unfold sampleToInt clampSample truncRat
    norm_num
  simp [wavToBytes, hs]

/-- C7: no automatic retry — when the config load, model load,
voice-style load, or synthesis call fails, `generateSpeech` has invoked
the failing engine operation exactly once in its trace and returns the
stage-tagged error, and `handleTTSRequest` reports a generation failure
to the caller with the `"Speech generation failed: "` prefix instead of
retrying. -/
theorem c7_no_retry {C T S : Type} (env : Env C T S) (cfg : ServerConfig)
    (req : TTSRequest) :
    (∀ e, env.loadCfgs = .error e →
        (generateSpeech env cfg req).1 = .error (.failedLoadConfig e)
        ∧ (generateSpeech env cfg req).2.countP isLoadCfgs = 1)
    ∧ (∀ c e, env.loadCfgs = .ok c → env.loadTTS c = .error e →
        (generateSpeech env cfg req).1 = .error (.failedLoadTTS e)
        ∧ (generateSpeech env cfg req).2.countP isLoadTTS = 1)
    ∧ (∀ c t vp e, env.loadCfgs = .ok c → env.loadTTS c = .ok t →
        GetVoicePath env.fs req.voice = .ok vp →
        env.loadVoiceStyle [vp] false = .error e →
        (generateSpeech env cfg req).1 = .error (.failedLoadStyle e)
        ∧ (generateSpeech env cfg req).2.countP isLoadStyle = 1)
    ∧ (∀ c t vp st e, env.loadCfgs = .ok c → env.loadTTS c = .ok t →
        GetVoicePath env.fs req.voice = .ok vp →
        env.loadVoiceStyle [vp] false = .ok st →
        env.call t req.input "en" st
          (if req.model = "tts-1-hd" then 10 else cfg.totalStep) req.speed
          (mkRat 3 10) = .error e →
        (generateSpeech env cfg req).1 = .error (.genFailed e)
        ∧ (generateSpeech env cfg req).2.countP isCall = 1)
    ∧ (∀ req2 e tr, validateRequest cfg env.fs req = .ok req2 →
        generateSpeech env cfg req2 = (.error e, tr) →
        handleTTSRequest env cfg req = (.serverError e, tr)
        ∧ renderHResult (.serverError e)
          = "Speech generation failed: " ++ renderGErr e) := by
  refine ⟨?_, ?_, ?_, ?_, ?_⟩
  · intro e h
    unfold generateSpeech
    rw [h]
    exact ⟨rfl, rfl⟩
  · intro c e h1 h2
    unfold generateSpeech
    rw [h1]
    simp only []
    rw [h2]
    exact ⟨rfl, rfl⟩
  · intro c t vp e h1 h2 h3 h4
    unfold generateSpeech
    rw [h1]
    simp only []
    rw [h2]
    simp only []
    rw [h3]
    simp only []
    rw [h4]
    exact ⟨rfl, rfl⟩
  · intro c t vp st e h1 h2 h3 h4 h5
    unfold generateSpeech
    rw [h1]
    simp only []
    rw [h2]
    simp only []
    rw [h3]
    simp only []
    rw [h4]
    simp only []
    rw [h5]
    exact ⟨rfl, rfl⟩
  · intro req2 e tr h1 h2
    unfold handleTTSRequest
    rw [h1]
    simp only []
    rw [h2]
    exact ⟨rfl, rfl⟩

/-- An engine environment whose config load fails with `"boom"`. -/
def envFailCfg : Env Unit Unit Unit := { envOK with loadCfgs := .error "boom" }

/-- An engine environment whose synthesis call fails with `"engine"`. -/
def envFailCall : Env Unit Unit Unit :=
  { envOK with call := fun _ _ _ _ _ _ _ => .error "engine" }

/-- Witness for C7: a failing config load and a failing synthesis call,
each invoked exactly once, with the handler reporting the prefixed
generation failure. -/
theorem c7_no_retry_witness :
    ((generateSpeech envFailCfg cfg0 req0).1 = .error (.failedLoadConfig "boom")
     ∧ (generateSpeech envFailCfg cfg0 req0).2.countP isLoadCfgs = 1)
    ∧ ((generateSpeech envFailCall cfg0 req0).1 = .error (.genFailed "engine")
     ∧ (generateSpeech envFailCall cfg0 req0).2.countP isCall = 1)
    ∧ handleTTSRequest envFailCall cfg0 req0
        = (.serverError (.genFailed "engine"),
           [.loadCfgsEv, .loadTTSEv, .getVoiceEv, .loadStyleEv, .callEv 5,
            .destroyStyleEv, .destroyTTSEv]) := by
  refine ⟨?_, ?_, ?_⟩
  · exact (c7_no_retry envFailCfg cfg0 req0).1 "boom" rfl
  · exact (c7_no_retry envFailCall cfg0 req0).2.2.2.1 () ()
      "assets/voice_styles/F5.json" () "engine" rfl rfl (by decide) rfl rfl
  · exact ((c7_no_retry envFailCall cfg0 req0).2.2.2.2 req0
      (.genFailed "engine")
      [.loadCfgsEv, .loadTTSEv, .getVoiceEv, .loadStyleEv, .callEv 5,
       .destroyStyleEv, .destroyTTSEv] (by decide) (by decide)).1

/-- C9: validation accepts exactly the model names `tts-1` and
`tts-1-hd` (an empty model defaults to `tts-1`, any other name is
rejected with the unsupported-model error), and the step count passed to
the synthesis call is `10` for `tts-1-hd` regardless of the configured
`--total-step` value, while `tts-1` uses the configured value. -/
theorem c9_models {C T S : Type} (env : Env C T S) (cfg : ServerConfig)
    (req : TTSRequest) :
    (req.input ≠ "" →
      (∃ p, GetVoicePath env.fs (normVoice req) = .ok p) →
      normModel req ≠ "tts-1" → normModel req ≠ "tts-1-hd" →
      validateRequest cfg env.fs req
        = .error (.unsupportedModel (normModel req)))
    ∧ (req.model = "" → normModel req = "tts-1")
    ∧ (req.input ≠ "" →
      (∃ p, GetVoicePath env.fs (normVoice req) = .ok p) →
      (normModel req = "tts-1" ∨ normModel req = "tts-1-hd") →
      validFormats (normFormat req) = true →
      1/4 ≤ normSpeed cfg req → normSpeed cfg req ≤ 4 →
      ∃ r, validateRequest cfg env.fs req = .ok r ∧ r.model = normModel req)
    ∧ (∀ c t vp st, env.loadCfgs = .ok c → env.loadTTS c = .ok t →
        GetVoicePath env.fs req.voice = .ok vp →
        env.loadVoiceStyle [vp] false = .ok st →
        (req.model = "tts-1-hd" →
          (generateSpeech env cfg req).2.countP isCall = 1
          ∧ Event.callEv 10 ∈ (generateSpeech env cfg req).2)
        ∧ (req.model = "tts-1" →
          (generateSpeech env cfg req).2.countP isCall = 1
          ∧ Event.callEv cfg.totalStep ∈ (generateSpeech env cfg req).2)) := by
  refine ⟨?_, ?_, ?_, ?_⟩
  · intro hin hv hm1 hm2
    exact validateRequest_model_error cfg env.fs req hin hv hm1 hm2
  · intro h
    simp [normModel, h]
  · intro hin hv hm hf h1 h2
    exact ⟨_, validateRequest_ok cfg env.fs req hin hv hm hf h1 h2, rfl⟩
  · intro c t vp st h1 h2 h3 h4
    unfold generateSpeech
    rw [h1]
    simp only []
    rw [h2]
    simp only []
    rw [h3]
    simp only []
    rw [h4]
    simp only []
    constructor
    · intro hm
      rw [hm]
      simp only [if_pos rfl]
      split
      · exact ⟨by simp [List.countP_cons, isCall], by simp [List.mem_cons]⟩
      · split
        · exact ⟨by simp [List.countP_cons, isCall], by simp [List.mem_cons]⟩
        · exact ⟨by simp [List.countP_cons, isCall], by simp [List.mem_cons]⟩
    · intro hm
      rw [hm]
      have hne : ("tts-1" : String) ≠ "tts-1-hd" := by decide
      rw [if_neg hne]
      split
      · exact ⟨by simp [List.countP_cons, isCall], by simp [List.mem_cons]⟩
      · split
        · exact ⟨by simp [List.countP_cons, isCall], by simp [List.mem_cons]⟩
        · exact ⟨by simp [List.countP_cons, isCall], by simp [List.mem_cons]⟩

/-- Witness for C9: `gpt-4` is rejected, an empty model defaults to
`tts-1`, a `tts-1` request is accepted, a `tts-1-hd` request runs the
synthesis call once with 10 steps, and a `tts-1` request runs it with
the configured step count (5 in `cfg0`). -/
theorem c9_models_witness :
    validateRequest cfg0 fs0 { req0 with model := "gpt-4" }
      = .error (.unsupportedModel "gpt-4")
    ∧ normModel { req0 with model := "" } = "tts-1"
    ∧ (∃ r, validateRequest cfg0 fs0 req0 = .ok r ∧ r.model = "tts-1")
    ∧ ((generateSpeech envOK cfg0 { req0 with model := "tts-1-hd" }).2.countP
         isCall = 1
       ∧ Event.callEv 10
           ∈ (generateSpeech envOK cfg0 { req0 with model := "tts-1-hd" }).2)
    ∧ Event.callEv cfg0.totalStep ∈ (generateSpeech envOK cfg0 req0).2 := by
  refine ⟨?_, ?_, ?_, ?_, ?_⟩
  · exact (c9_models envOK cfg0 { req0 with model := "gpt-4" }).1 (by decide)
      ⟨"assets/voice_styles/F5.json", by decide⟩ (by decide) (by decide)
  · exact (c9_models envOK cfg0 { req0 with model := "" }).2.1 rfl
  · exact (c9_models envOK cfg0 req0).2.2.1 (by decide)
      ⟨"assets/voice_styles/F5.json", by decide⟩ (Or.inl (by decide))
      (by decide) (by norm_num [normSpeed, req0])
      (by norm_num [normSpeed, req0])
  · exact ((c9_models envOK cfg0 { req0 with model := "tts-1-hd" }).2.2.2
      () () "assets/voice_styles/F5.json" () rfl rfl (by decide) rfl).1 rfl
  · exact (((c9_models envOK cfg0 req0).2.2.2
      () () "assets/voice_styles/F5.json" () rfl rfl (by decide) rfl).2 rfl).2

/-- C10: `GetVoicePath` errors exactly when the voice is not a key of
`VoiceMapping` (with the error message listing the available voices) or
the mapped style file exists at neither the default path nor under
`/var/lib/supertonic`; otherwise it returns the path that was found
(default location first, then the alternate); and `GetAvailableVoices`
is exactly one name per key of `VoiceMapping`, without duplicates. -/
theorem c10_voice_lookup (fs : String → Bool) (v : String) :
    (VoiceMapping.lookup v = none →
      GetVoicePath fs v = .error (.unsupportedVoice v))
    ∧ renderVoiceErr (.unsupportedVoice v)
        = "unsupported voice: " ++ v ++ ". Available voices: "
          ++ formatStringSlice GetAvailableVoices
    ∧ (∀ p, VoiceMapping.lookup v = some p →
        (fs p = true → GetVoicePath fs v = .ok p)
        ∧ (fs p = false → fs (altVoicePath p) = true →
            GetVoicePath fs v = .ok (altVoicePath p))
        ∧ (fs p = false → fs (altVoicePath p) = false →
            GetVoicePath fs v = .error (.styleNotFound v)))
    ∧ ((∃ e, GetVoicePath fs v = .error e)
        ↔ VoiceMapping.lookup v = none
          ∨ ∃ p, VoiceMapping.lookup v = some p ∧ fs p = false
              ∧ fs (altVoicePath p) = false)
    ∧ GetAvailableVoices = VoiceMapping.map Prod.fst
    ∧ GetAvailableVoices.Nodup := by
  refine ⟨?_, rfl, ?_, ?_, rfl, by decide⟩
  · intro h
    unfold GetVoicePath
    rw [h]
  · intro p hp
    unfold GetVoicePath
    rw [hp]
    simp only []
    refine ⟨?_, ?_, ?_⟩
    · intro hfp
      rw [if_pos hfp]
    · intro h1 h2
      rw [if_neg (by simp [h1]), if_pos h2]
    · intro h1 h2
      rw [if_neg (by simp [h1]), if_neg (by simp [h2])]
  · constructor
    · rintro ⟨e, he⟩
      cases hl : VoiceMapping.lookup v with
      | none => exact Or.inl rfl
      | some p =>
        refine Or.inr ⟨p, rfl, ?_⟩
        unfold GetVoicePath at he
        rw [hl] at he
        simp only [] at he
        by_cases hfp : fs p = true
        · rw [if_pos hfp] at he
          exact Except.noConfusion he
        · rw [if_neg hfp] at he
          by_cases halt : fs (altVoicePath p) = true
          · rw [if_pos halt] at he
            exact Except.noConfusion he
          · exact ⟨Bool.not_eq_true _ ▸ hfp, Bool.not_eq_true _ ▸ halt⟩
    · rintro (h | ⟨p, hp, h1, h2⟩)
      · refine ⟨.unsupportedVoice v, ?_⟩
        unfold GetVoicePath
        rw [h]
      · refine ⟨.styleNotFound v, ?_⟩
        unfold GetVoicePath
        rw [hp]
        simp only []
        rw [if_neg (by simp [h1]), if_neg (by simp [h2])]

/-- Witness for C10: the four concrete outcomes — default path found,
unknown voice, alternate path found, neither path found. -/
theorem c10_voice_lookup_witness :
    GetVoicePath fs0 "F5" = .ok "assets/voice_styles/F5.json"
    ∧ GetVoicePath fs0 "XX" = .error (.unsupportedVoice "XX")
    ∧ GetVoicePath (fun p => p == altVoicePath "assets/voice_styles/M1.json")
        "M1" = .ok (altVoicePath "assets/voice_styles/M1.json")
    ∧ GetVoicePath (fun _ => false) "M1" = .error (.styleNotFound "M1") := by
  refine ⟨?_, ?_, ?_, ?_⟩
  · exact ((c10_voice_lookup fs0 "F5").2.2.1 "assets/voice_styles/F5.json"
      (by decide)).1 (by decide)
  · exact (c10_voice_lookup fs0 "XX").1 (by decide)
  · exact ((c10_voice_lookup
      (fun p => p == altVoicePath "assets/voice_styles/M1.json") "M1").2.2.1
      "assets/voice_styles/M1.json" (by decide)).2.1 (by decide) (by decide)
  · exact ((c10_voice_lookup (fun _ => false) "M1").2.2.1
      "assets/voice_styles/M1.json" (by decide)).2.2 rfl rfl

end Supertonic
